import Mathlib

/-!
Verification of the concept-explainer backend (src/backend/main.py).

The service is a single FastAPI endpoint `POST /explain`.  The handler
`explain_concept` validates the difficulty, builds a prompt, performs one
outbound POST to the local Ollama server, and maps the upstream outcome to a
client-facing result.  We embed the handler as a pure function from the
incoming request together with the outcome of the (single possible) outbound
call to the pair of (list of outbound calls actually issued, handler result).
-/

namespace ConceptExplainer

/-- Request body structure (class ExplanationRequest in main.py):
fields `topic : str` and `difficulty : str`. -/
structure ExplanationRequest where
  topic : String
  difficulty : String
  deriving Repr, DecidableEq

/-- Outcome of the handler, as seen by the HTTP client.  A FastAPI handler
that returns normally produces status 200 with the returned body
(ExplanationResponse, one field `explanation`); raising
HTTPException(status_code, detail) produces that status with the detail. -/
inductive HandlerResult where
  | success (explanation : String)
  | failure (status : Nat) (detail : String)
  deriving Repr, DecidableEq

/-- The HTTP status carried by a handler result: a normal return is served
with status 200, an HTTPException with its own status code. -/
def HandlerResult.status : HandlerResult → Nat
  | .success _ => 200
  | .failure s _ => s

/-- Outcome of the single `requests.post` call to Ollama, abstracting the
transport.  `httpResponse status responseField` models a completed HTTP
exchange whose body parsed as JSON, with `responseField` the value of its
"response" key (`none` when the key is missing).  The other constructors
model the exception classes the handler catches:
requests.exceptions.ConnectionError, requests.exceptions.Timeout, and any
other requests.exceptions.RequestException. -/
inductive UpstreamOutcome where
  | httpResponse (status : Nat) (responseField : Option String)
  | connectionError
  | timeout
  | requestError
  deriving Repr, DecidableEq

/-- Python str.strip() as used on the Ollama "response" field: remove leading
and trailing whitespace characters. -/
def strip (s : String) : String :=
  ⟨((s.data.dropWhile Char.isWhitespace).reverse.dropWhile Char.isWhitespace).reverse⟩

/-- valid_difficulties in main.py. -/
def validDifficulties : List String := ["beginner", "intermediate", "advanced"]

/-- The f-string prompt template of main.py, with `topic` and `difficulty`
interpolated verbatim. -/
def prompt (topic difficulty : String) : String :=
  "Explain the concept of \"" ++ topic ++ "\" in " ++ difficulty ++
    " terms.\n    \nRequirements:\n- Start with a clear definition\n- Use 3-5 short paragraphs\n- Include 1-2 real-world examples\n- Avoid jargon (unless advanced level)\n- End with a summary sentence"

/-- ollama_payload in main.py: the JSON body of the outbound call. -/
structure OllamaPayload where
  model : String
  prompt : String
  stream : Bool
  deriving Repr, DecidableEq

/-- One outbound `requests.post` call as issued by the handler: target URL,
JSON payload, and the timeout argument (seconds). -/
structure OutboundRequest where
  url : String
  payload : OllamaPayload
  timeout : Nat
  deriving Repr, DecidableEq

/-- The handler explain_concept of main.py, as a pure function of the request
and the outcome of the outbound call.  The first component of the result is
the list of outbound calls actually issued (empty when validation rejects the
request before the network call; the code makes at most one call and never
retries).

Two places where the translation follows exception semantics of the source:
- response.raise_for_status() raises requests.exceptions.HTTPError exactly
  when 400 <= status < 600; HTTPError is a RequestException, so the
  RequestException arm maps it to 502 "Error communicating with Ollama".
- the HTTPException(502, "Received empty response from Ollama") raised for an
  empty/missing "response" field is raised inside the try block, and
  fastapi.HTTPException is a subclass of Exception, so the final bare
  Exception arm catches it and replaces it with
  HTTPException(500, "Internal server error"). -/
def explain_concept (request : ExplanationRequest) (outcome : UpstreamOutcome) :
    List OutboundRequest × HandlerResult :=
  if request.difficulty ∉ validDifficulties then
    ([], .failure 400
      ("Invalid difficulty. Must be one of: " ++ String.intercalate ", " validDifficulties))
  else
    let ollama_payload : OllamaPayload :=
      { model := "qwen2.5:3b"
        prompt := prompt request.topic request.difficulty
        stream := false }
    let call : OutboundRequest :=
      { url := "http://localhost:11434/api/generate"
        payload := ollama_payload
        timeout := 120 }
    ([call],
      match outcome with
      | .httpResponse status responseField =>
        if 400 ≤ status ∧ status < 600 then
          .failure 502 "Error communicating with Ollama"
        else
          let explanation_text := strip (responseField.getD "")
          if explanation_text = "" then
            .failure 500 "Internal server error"
          else
            .success explanation_text
      | .connectionError =>
        .failure 503 "Ollama service unavailable. Make sure Ollama is running on port 11434"
      | .timeout =>
        .failure 504 "Request to Ollama timed out"
      | .requestError =>
        .failure 502 "Error communicating with Ollama")

/-- Minimal JSON value model for the inbound POST /explain body. -/
inductive Json where
  | str (s : String)
  | num (n : Int)
  | bool (b : Bool)
  | null
  | arr (elems : List Json)
  | obj (fields : List (String × Json))

/-- First binding of a key in a JSON object field list. -/
def lookupPairs : List (String × Json) → String → Option Json
  | [], _ => none
  | (k, v) :: rest, key => if k = key then some v else lookupPairs rest key

/-- Field access on a JSON value: a key of an object, nothing otherwise. -/
def Json.lookup (body : Json) (key : String) : Option Json :=
  match body with
  | .obj fields => lookupPairs fields key
  | _ => none

/-- Whether `key` is present in `body` with a string value. -/
def hasStringField (body : Json) (key : String) : Bool :=
  match body.lookup key with
  | some (.str _) => true
  | _ => false

/-- Modelled from the spec: the request-body validation that FastAPI performs
against the declared ExplanationRequest model (topic : str, difficulty : str)
before invoking the handler.  This framework behavior is not code under src/;
per FastAPI's contract, a body missing either field or carrying a non-string
value is rejected with status 422 (RequestValidationError) and the handler
never runs. -/
def parseRequestBody (body : Json) : Except (Nat × String) ExplanationRequest :=
  match body.lookup "topic", body.lookup "difficulty" with
  | some (.str t), some (.str d) => .ok ⟨t, d⟩
  | _, _ => .error (422, "Unprocessable Entity")

/-- The full POST /explain pipeline: framework body validation, then the
handler.  A validation failure issues no outbound call. -/
def postExplain (body : Json) (outcome : UpstreamOutcome) :
    List OutboundRequest × HandlerResult :=
  match parseRequestBody body with
  | .error (s, d) => ([], .failure s d)
  | .ok request => explain_concept request outcome

/-- C1: for every request with a valid difficulty and non-empty topic, if the
collaborator returns HTTP 200 with a JSON body whose "response" field trims
to a non-empty string, the handler returns success, carrying exactly the
trimmed text, served with status 200. -/
theorem explain_returns_trimmed_success (request : ExplanationRequest) (X : String)
    (hd : request.difficulty ∈ validDifficulties) (_ht : request.topic ≠ "")
    (hx : strip X ≠ "") :
    (explain_concept request (.httpResponse 200 (some X))).2 = .success (strip X) ∧
      ((explain_concept request (.httpResponse 200 (some X))).2).status = 200 := by
  have hnn : ¬ request.difficulty ∉ validDifficulties := not_not_intro hd
  simp [explain_concept, hnn, hx, HandlerResult.status]

/-- Witness for C1: the concrete scenario of the spec. -/
theorem explain_returns_trimmed_success_witness :
    (explain_concept ⟨"recursion", "beginner"⟩
        (.httpResponse 200 (some "  Recursion is...  "))).2 =
      .success (strip "  Recursion is...  ") ∧
      ((explain_concept ⟨"recursion", "beginner"⟩
        (.httpResponse 200 (some "  Recursion is...  "))).2).status = 200 :=
  explain_returns_trimmed_success ⟨"recursion", "beginner"⟩ "  Recursion is...  "
    (by decide) (by decide) (by decide)

/-- C2: for every difficulty outside the closed set, whatever the outcome the
collaborator would have produced, the handler fails with 400, the detail
listing all three allowed values, and issues no outbound call. -/
theorem invalid_difficulty_rejected (request : ExplanationRequest)
    (outcome : UpstreamOutcome) (hd : request.difficulty ∉ validDifficulties) :
    explain_concept request outcome =
      ([], .failure 400 "Invalid difficulty. Must be one of: beginner, intermediate, advanced") := by
  simp only [explain_concept, if_pos hd]
  rfl

/-- Witness for C2: the concrete invalid-difficulty scenario of the spec. -/
theorem invalid_difficulty_rejected_witness :
    explain_concept ⟨"monads", "expert"⟩ .timeout =
      ([], .failure 400 "Invalid difficulty. Must be one of: beginner, intermediate, advanced") :=
  invalid_difficulty_rejected ⟨"monads", "expert"⟩ .timeout (by decide)

/-- C3 (code bug): with a valid difficulty, a 2xx upstream response whose
"response" field is empty, missing, or whitespace-only does NOT yield the
intended BadGateway 502 "Received empty response from Ollama": the
HTTPException(502) raised inside the try block is caught by the final bare
Exception arm and replaced with 500 "Internal server error". -/
theorem empty_response_mapped_to_500 :
    (explain_concept ⟨"recursion", "beginner"⟩ (.httpResponse 200 (some ""))).2 =
      .failure 500 "Internal server error" ∧
    (explain_concept ⟨"recursion", "beginner"⟩ (.httpResponse 200 none)).2 =
      .failure 500 "Internal server error" ∧
    (explain_concept ⟨"recursion", "beginner"⟩ (.httpResponse 200 (some "   "))).2 =
      .failure 500 "Internal server error" ∧
    (explain_concept ⟨"recursion", "beginner"⟩ (.httpResponse 200 (some ""))).2 ≠
      .failure 502 "Received empty response from Ollama" := by
  refine ⟨?_, ?_, ?_, ?_⟩ <;> decide

/-- C4: the handler returns success only with a non-empty explanation; no
path produces a successful empty answer. -/
theorem success_explanation_nonempty (request : ExplanationRequest)
    (outcome : UpstreamOutcome) (e : String)
    (h : (explain_concept request outcome).2 = .success e) : e ≠ "" := by
  by_cases hd : request.difficulty ∉ validDifficulties
  · simp [explain_concept, hd] at h
  · cases outcome with
    | httpResponse status responseField =>
      simp only [explain_concept, if_neg hd] at h
      by_cases h4 : 400 ≤ status ∧ status < 600
      · simp [h4] at h
      · simp only [if_neg h4] at h
        by_cases he : strip (responseField.getD "") = ""
        · simp [he] at h
        · simp [he] at h
          exact h ▸ he
    | connectionError => simp [explain_concept, if_neg hd] at h
    | timeout => simp [explain_concept, if_neg hd] at h
    | requestError => simp [explain_concept, if_neg hd] at h

/-- Witness for C4 at a concrete successful run. -/
theorem success_explanation_nonempty_witness :
    (explain_concept ⟨"recursion", "beginner"⟩ (.httpResponse 200 (some "hi"))).2 =
      .success "hi" ∧ "hi" ≠ "" :=
  ⟨by decide, success_explanation_nonempty ⟨"recursion", "beginner"⟩
    (.httpResponse 200 (some "hi")) "hi" (by decide)⟩

/-- C5: with a valid difficulty, a refused connection to Ollama maps to
HTTPException 503, whatever the topic. -/
theorem connection_refused_503 (request : ExplanationRequest)
    (hd : request.difficulty ∈ validDifficulties) :
    (explain_concept request .connectionError).2 =
      .failure 503 "Ollama service unavailable. Make sure Ollama is running on port 11434" := by
  have hnn : ¬ request.difficulty ∉ validDifficulties := not_not_intro hd
  simp [explain_concept, hnn]

/-- Witness for C5. -/
theorem connection_refused_503_witness :
    (explain_concept ⟨"recursion", "beginner"⟩ .connectionError).2 =
      .failure 503 "Ollama service unavailable. Make sure Ollama is running on port 11434" :=
  connection_refused_503 ⟨"recursion", "beginner"⟩ (by decide)

/-- C6: with a valid difficulty, a timed-out call (120-second bound) maps to
HTTPException 504. -/
theorem timeout_mapped_to_504 (request : ExplanationRequest)
    (hd : request.difficulty ∈ validDifficulties) :
    (explain_concept request .timeout).2 = .failure 504 "Request to Ollama timed out" := by
  have hnn : ¬ request.difficulty ∉ validDifficulties := not_not_intro hd
  simp [explain_concept, hnn]

/-- Witness for C6. -/
theorem timeout_mapped_to_504_witness :
    (explain_concept ⟨"recursion", "advanced"⟩ .timeout).2 =
      .failure 504 "Request to Ollama timed out" :=
  timeout_mapped_to_504 ⟨"recursion", "advanced"⟩ (by decide)

/-- Counterexample to C7 as stated: status 304 is not 2xx, yet the handler
returns success with status 200, because response.raise_for_status() raises
only for statuses in [400, 600). -/
theorem non_2xx_success_counterexample :
    ¬ (200 ≤ 304 ∧ 304 < 300) ∧
    (explain_concept ⟨"recursion", "beginner"⟩ (.httpResponse 304 (some "ok"))).2 =
      .success "ok" ∧
    ((explain_concept ⟨"recursion", "beginner"⟩ (.httpResponse 304 (some "ok"))).2).status ≠ 502 := by
  refine ⟨?_, ?_, ?_⟩ <;> decide

/-- C7 (amended): with a valid difficulty, an upstream HTTP status in
[400, 600) — the statuses for which raise_for_status raises — maps to
HTTPException 502 with the generic upstream-error detail, whatever the body. -/
theorem upstream_error_status_502 (request : ExplanationRequest) (status : Nat)
    (responseField : Option String) (hd : request.difficulty ∈ validDifficulties)
    (h4 : 400 ≤ status) (h6 : status < 600) :
    (explain_concept request (.httpResponse status responseField)).2 =
      .failure 502 "Error communicating with Ollama" := by
  have hnn : ¬ request.difficulty ∉ validDifficulties := not_not_intro hd
  simp [explain_concept, hnn, h4, h6]

/-- Witness for the amended C7. -/
theorem upstream_error_status_502_witness :
    (explain_concept ⟨"recursion", "beginner"⟩ (.httpResponse 500 (some "oops"))).2 =
      .failure 502 "Error communicating with Ollama" :=
  upstream_error_status_502 ⟨"recursion", "beginner"⟩ 500 (some "oops")
    (by decide) (by decide) (by decide)

/-- C8: with a valid difficulty, exactly one outbound POST is issued,
whatever the outcome (no retry), to the fixed Ollama endpoint, with the fixed
model id, the constructed prompt, stream disabled, and a 120-second timeout. -/
theorem single_outbound_call (request : ExplanationRequest) (outcome : UpstreamOutcome)
    (hd : request.difficulty ∈ validDifficulties) :
    (explain_concept request outcome).1 =
      [{ url := "http://localhost:11434/api/generate"
         payload := { model := "qwen2.5:3b"
                      prompt := prompt request.topic request.difficulty
                      stream := false }
         timeout := 120 }] := by
  have hnn : ¬ request.difficulty ∉ validDifficulties := not_not_intro hd
  simp [explain_concept, hnn]

/-- Witness for C8. -/
theorem single_outbound_call_witness :
    (explain_concept ⟨"recursion", "beginner"⟩ .requestError).1 =
      [{ url := "http://localhost:11434/api/generate"
         payload := { model := "qwen2.5:3b"
                      prompt := prompt "recursion" "beginner"
                      stream := false }
         timeout := 120 }] :=
  single_outbound_call ⟨"recursion", "beginner"⟩ .requestError (by decide)

/-- C9: for every topic, including the empty string, a request with a valid
difficulty is accepted (the call is issued, so validation did not reject the
topic), and the prompt sent upstream is exactly the fixed template with topic
and difficulty interpolated verbatim. -/
theorem topic_unvalidated_prompt_template (topic difficulty : String)
    (outcome : UpstreamOutcome) (hd : difficulty ∈ validDifficulties) :
    (explain_concept ⟨topic, difficulty⟩ outcome).1.map (fun c => c.payload.prompt) =
      ["Explain the concept of \"" ++ topic ++ "\" in " ++ difficulty ++
        " terms.\n    \nRequirements:\n- Start with a clear definition\n- Use 3-5 short paragraphs\n- Include 1-2 real-world examples\n- Avoid jargon (unless advanced level)\n- End with a summary sentence"] := by
  have hnn : ¬ (⟨topic, difficulty⟩ : ExplanationRequest).difficulty ∉ validDifficulties :=
    not_not_intro hd
  simp [explain_concept, hnn, prompt]

/-- Witness for C9, with an empty topic. -/
theorem topic_unvalidated_prompt_template_witness :
    (explain_concept ⟨"", "beginner"⟩ .connectionError).1.map (fun c => c.payload.prompt) =
      ["Explain the concept of \"" ++ "" ++ "\" in " ++ "beginner" ++
        " terms.\n    \nRequirements:\n- Start with a clear definition\n- Use 3-5 short paragraphs\n- Include 1-2 real-world examples\n- Avoid jargon (unless advanced level)\n- End with a summary sentence"] :=
  topic_unvalidated_prompt_template "" "beginner" .connectionError (by decide)

/-- C10: a body missing `topic` or `difficulty`, or carrying a non-string
value for either, is rejected by the framework's model validation with
status 422 before the handler runs (so no outbound call is made); 422 lies
outside the spec's enumerated failure set. -/
theorem malformed_body_422 (body : Json) (outcome : UpstreamOutcome)
    (h : hasStringField body "topic" = false ∨ hasStringField body "difficulty" = false) :
    (postExplain body outcome).1 = [] ∧
    ((postExplain body outcome).2).status = 422 ∧
    ((postExplain body outcome).2).status ∉ ([400, 500, 502, 503, 504] : List Nat) := by
  have hfields : ∀ t d, ¬ (Json.lookup body "topic" = some (.str t) ∧
      Json.lookup body "difficulty" = some (.str d)) := by
    rintro t d ⟨ht, hd⟩
    rcases h with h | h <;> simp [hasStringField, ht, hd] at h
  have herr : parseRequestBody body = Except.error (422, "Unprocessable Entity") := by
    unfold parseRequestBody
    rcases ht : Json.lookup body "topic" with _ | vt
    · rfl
    · cases vt with
      | str t =>
        rcases hd : Json.lookup body "difficulty" with _ | vd
        · rfl
        · cases vd with
          | str d => exact absurd ⟨ht, hd⟩ (hfields t d)
          | num n => rfl
          | bool b => rfl
          | null => rfl
          | arr elems => rfl
          | obj fields => rfl
      | num n => rfl
      | bool b => rfl
      | null => rfl
      | arr elems => rfl
      | obj fields => rfl
  refine ⟨?_, ?_, ?_⟩ <;> simp [postExplain, herr, HandlerResult.status]

/-- Witness for C10: a numeric topic is rejected with 422. -/
theorem malformed_body_422_witness :
    (postExplain (.obj [("topic", .num 5), ("difficulty", .str "beginner")]) .timeout).1 = [] ∧
    ((postExplain (.obj [("topic", .num 5), ("difficulty", .str "beginner")]) .timeout).2).status = 422 ∧
    ((postExplain (.obj [("topic", .num 5), ("difficulty", .str "beginner")]) .timeout).2).status ∉
      ([400, 500, 502, 503, 504] : List Nat) :=
  malformed_body_422 (.obj [("topic", .num 5), ("difficulty", .str "beginner")]) .timeout
    (Or.inl (by decide))

end ConceptExplainer
